import Mathlib

/-
Verification of the sensu-runbook job-dispatch client (main.go) against its
natural-language specification.  The Go program is shallowly embedded:
pure helpers become Lean functions, the HTTP layer is parametrised by the
response the remote platform would return, and log.Fatalf (which prints and
calls os.Exit(1)) is modelled as a distinct fatalExit outcome carrying the
process exit code 1.
-/

namespace SensuRunbook

/-- Check states from the sensu-plugin-sdk: these are the numeric exit
statuses of the monitoring-check convention. -/
def CheckStateOK : Nat := 0

/-- Warning check state (exit status 1). -/
def CheckStateWarning : Nat := 1

/-- Critical check state (exit status 2). -/
def CheckStateCritical : Nat := 2

/-- Config mirrors the Config struct of main.go (the sensu.PluginConfig
metadata fields, which carry only help text, are omitted). -/
structure Config where
  Namespace          : String
  JobID              : String
  Command            : String
  Subscriptions      : String
  Timeout            : String
  RuntimeAssets      : String
  SensuAPIUrl        : String
  SensuAccessToken   : String
  SensuTrustedCaFile : String
deriving DecidableEq, Repr

/-- JobRequest mirrors the JobRequest struct of main.go: the body of the
execute (Invoke) request. -/
structure JobRequest where
  Check         : String
  Subscriptions : List String
deriving DecidableEq, Repr

/-- CheckConfig mirrors the used fields of types.CheckConfig as populated by
generateCheckConfig; the nested ObjectMeta (Name, Namespace, Labels) is
inlined, and the Go map for labels is modelled as an association list. -/
structure CheckConfig where
  Name          : String
  Namespace     : String
  Labels        : List (String × String)
  Command       : String
  Publish       : Bool
  Subscriptions : List String
  Interval      : Nat
  Timeout       : Nat
  RuntimeAssets : List String
deriving DecidableEq, Repr

/-- splitChar models Go strings.Split for a one-character separator, the
only form this program uses (separator ","): Go returns the substrings
between separators, so the empty string splits to a single empty string and
order and duplicates are preserved. -/
def splitChar (sep : Char) : List Char → List String
  | [] => [""]
  | c :: cs =>
    let rest := splitChar sep cs
    if c = sep then "" :: rest
    else
      match rest with
      | [] => [String.mk [c]]
      | r :: rs => String.mk (c :: r.data) :: rs

/-- goSplit is strings.Split from the Go standard library, restricted to the
one-character separators this program passes. -/
def goSplit (s : String) (sep : Char) : List String :=
  splitChar sep s.data

/-- AtoiErr distinguishes the two error classes of Go strconv.Atoi:
ErrSyntax (value reported as 0) and ErrRange (value clamped). -/
inductive AtoiErr where
  | notNumeric
  | outOfRange
deriving DecidableEq, Repr

/-- Largest value of the 64-bit signed integer type, the int width of the
release builds of this program. -/
def maxInt64 : Int := 2 ^ 63 - 1

/-- Smallest value of the 64-bit signed integer type. -/
def minInt64 : Int := -(2 ^ 63)

/-- goAtoiCore parses the digit part of a Go integer literal after the
sign has been stripped: no digits at all or a non-digit character is a
malformed-input error with reported value 0; values out of the int64 range
are clamped and flagged as range errors. -/
def goAtoiCore (neg : Bool) (ds : List Char) : Int × Option AtoiErr :=
  if ds.isEmpty || !(ds.all Char.isDigit) then (0, some AtoiErr.notNumeric)
  else
    let n : Int := ds.foldl (fun a c => a * 10 + ((c.toNat : Int) - 48)) 0
    let v : Int := if neg then -n else n
    if v > maxInt64 then (maxInt64, some AtoiErr.outOfRange)
    else if v < minInt64 then (minInt64, some AtoiErr.outOfRange)
    else (v, none)

/-- goAtoi models Go strconv.Atoi on a 64-bit platform: an optional
leading sign followed by at least one decimal digit parses to its value,
anything else is a malformed-input error with reported value 0. -/
def goAtoi (s : String) : Int × Option AtoiErr :=
  let cs := s.data
  let neg := cs.head? == some '-'
  let ds := if neg || (cs.head? == some '+') then cs.tail else cs
  goAtoiCore neg ds

/-- uint32OfInt is the Go conversion uint32(x) from int: truncation to the
low 32 bits, in two-complement style for negative values. -/
def uint32OfInt (x : Int) : Nat :=
  (x % (2 ^ 32 : Int)).toNat

/-- checkArgs mirrors main.go lines 140 to 151: the pre-flight validation,
returning a check state and an optional error message.  Note the first two
branches return the Critical state and the last two the Warning state. -/
def checkArgs (config : Config) : Nat × Option String :=
  if config.SensuAPIUrl.length = 0 then
    (CheckStateCritical,
      some "--sensu-api-url flag or $SENSU_API_URL environment variable must be set")
  else if config.Namespace.length = 0 then
    (CheckStateCritical,
      some "--namespace flag or $SENSU_NAMESPACE environment variable must be set")
  else if config.Command.length = 0 then
    (CheckStateWarning,
      some "--command flag or $SENSU_RUNBOOK_COMMAND environment variable must be set")
  else if config.Subscriptions.length = 0 then
    (CheckStateWarning,
      some "--subscriptions flag or $SENSU_RUNBOOK_SUBSCRIPTIONS environment variable must be set")
  else
    (CheckStateOK, none)

/-- generateCheckConfig mirrors main.go lines 171 to 191: the Atoi error is
discarded with the blank identifier, the labels map is created empty by
make and never written to, and the function always returns a nil error. -/
def generateCheckConfig (config : Config) : CheckConfig × Option String :=
  let timeout : Int := (goAtoi config.Timeout).1
  let labels : List (String × String) := []
  let job : CheckConfig :=
    { Name          := config.JobID
      Namespace     := config.Namespace
      Labels        := labels
      Command       := config.Command
      Publish       := false
      Subscriptions := ["none"]
      Interval      := 10
      Timeout       := uint32OfInt timeout
      RuntimeAssets :=
        if config.RuntimeAssets.length > 0 then goSplit config.RuntimeAssets ',' else [] }
  (job, none)

/-- statusText models http.StatusText from the Go standard library for the
status codes this development mentions; Go returns the empty string for a
code missing from its table, and codes outside this list are likewise
mapped to the empty string here (no claim depends on their text). -/
def statusText (code : Nat) : String :=
  if code = 200 then "OK"
  else if code = 201 then "Created"
  else if code = 202 then "Accepted"
  else if code = 400 then "Bad Request"
  else if code = 401 then "Unauthorized"
  else if code = 403 then "Forbidden"
  else if code = 404 then "Not Found"
  else if code = 409 then "Conflict"
  else if code = 500 then "Internal Server Error"
  else ""

/-- CertPool models an x509.CertPool as far as this program observes it:
whether it was seeded from the system pool, and the list of PEM blobs
appended to it. -/
structure CertPool where
  fromSystem : Bool
  appended   : List String
deriving DecidableEq, Repr

/-- LoadResult is the observable outcome of LoadCACerts: either the process
was aborted by log.Fatalf (exit status 1), or a pool was produced.  The
statement return nil, err after log.Fatalf in the source is unreachable,
so the error-returning path does not occur. -/
inductive LoadResult where
  | fatalExit (exitCode : Nat) (msg : String)
  | ok (pool : CertPool)
deriving DecidableEq, Repr

/-- LoadCACerts mirrors main.go lines 194 to 212.  The environment is
abstracted by sysPoolAvail (whether x509.SystemCertPool succeeds) and
readFile (the result of ioutil.ReadFile per path).  An unavailable system
pool falls back to a fresh empty pool; a read failure of a non-empty path
hits log.Fatalf, aborting the process with exit status 1. -/
def LoadCACerts (sysPoolAvail : Bool) (readFile : String → Except String String)
    (path : String) : LoadResult :=
  let rootCAs : CertPool :=
    if sysPoolAvail then { fromSystem := true, appended := [] }
    else { fromSystem := false, appended := [] }
  if path ≠ "" then
    match readFile path with
    | Except.error e =>
        LoadResult.fatalExit 1 ("ERROR: failed to read CA file (" ++ path ++ "): " ++ e)
    | Except.ok certs =>
        LoadResult.ok { rootCAs with appended := rootCAs.appended ++ [certs] }
  else
    LoadResult.ok rootCAs

/-- HTTPClient models the http.Client built by initHTTPClient: all this
program observes of it is the trust store of its TLS transport. -/
structure HTTPClient where
  rootCAs : CertPool
deriving DecidableEq, Repr

/-- ClientResult is the observable outcome of initHTTPClient: a client, or
a process abort from log.Fatalf inside LoadCACerts. -/
inductive ClientResult where
  | fatalExit (exitCode : Nat) (msg : String)
  | ok (client : HTTPClient)
deriving DecidableEq, Repr

/-- initHTTPClient mirrors main.go lines 214 to 229: load the CA pool for
config.SensuTrustedCaFile and wrap it in a client (the err branch of the
source is dead code, since LoadCACerts aborts the process before returning
a non-nil error). -/
def initHTTPClient (config : Config) (sysPoolAvail : Bool)
    (readFile : String → Except String String) : ClientResult :=
  match LoadCACerts sysPoolAvail readFile config.SensuTrustedCaFile with
  | LoadResult.fatalExit c m => ClientResult.fatalExit c m
  | LoadResult.ok certs => ClientResult.ok { rootCAs := certs }

/-- HttpResult abstracts the outcome of httpClient.Do: a transport error,
or a response with its status code, body, and whether reading the body
would succeed. -/
inductive HttpResult where
  | transportErr (msg : String)
  | resp (status : Nat) (body : String) (bodyReadOk : Bool)
deriving DecidableEq, Repr

/-- CallResult is the observable outcome of createJob or executeJob: a
process abort via log.Fatalf (exit status 1), or a normal return with an
optional error value. -/
inductive CallResult where
  | fatalExit (exitCode : Nat) (msg : String)
  | ret (e : Option String)
deriving DecidableEq, Repr

/-- createRequestURL is the URL built by createJob (main.go lines 237 to
244). -/
def createRequestURL (config : Config) : String :=
  config.SensuAPIUrl ++ "/api/core/v2/namespaces/" ++ config.Namespace ++ "/checks"

/-- executeRequestURL is the URL built by executeJob (main.go lines 290 to
298); note the path segment is config.JobID. -/
def executeRequestURL (config : Config) : String :=
  config.SensuAPIUrl ++ "/api/core/v2/namespaces/" ++ config.Namespace ++
    "/checks/" ++ config.JobID ++ "/execute"

/-- mkJobRequest mirrors main.go lines 281 to 284: the Invoke body carries
the job name and the comma-split of config.Subscriptions. -/
def mkJobRequest (job : CheckConfig) (config : Config) : JobRequest :=
  { Check := job.Name, Subscriptions := goSplit config.Subscriptions ',' }

/-- CreateRequest is the network request issued by createJob: its URL and
its JSON payload (the job definition itself). -/
structure CreateRequest where
  url     : String
  payload : CheckConfig
deriving DecidableEq, Repr

/-- ExecuteRequest is the network request issued by executeJob: its URL and
its JSON payload (the JobRequest body). -/
structure ExecuteRequest where
  url     : String
  payload : JobRequest
deriving DecidableEq, Repr

/-- Request tags the two kinds of network calls the program can make, used
to record the trace of calls actually issued in a run. -/
inductive Request where
  | create (r : CreateRequest)
  | execute (r : ExecuteRequest)
deriving DecidableEq, Repr

/-- classifyCreate mirrors the response-classification chain of createJob
(main.go lines 251 to 277).  Branches calling log.Fatalf abort the process
with exit status 1; in the 409 branch and in the final fall-through the
variable err returned is the nil error of the successful Do call, so both
are normal nil returns. -/
def classifyCreate (config : Config) (r : HttpResult) : CallResult :=
  match r with
  | HttpResult.transportErr m => CallResult.fatalExit 1 ("ERROR: " ++ m)
  | HttpResult.resp status _ bodyReadOk =>
    if status = 404 then
      CallResult.fatalExit 1
        ("ERROR: " ++ toString status ++ " " ++ statusText status ++
          " (" ++ createRequestURL config ++ ")")
    else if status = 409 then
      CallResult.ret none
    else if status ≥ 300 then
      CallResult.fatalExit 1 ("ERROR: " ++ toString status ++ " " ++ statusText status)
    else if status = 201 then
      CallResult.ret none
    else
      if bodyReadOk then CallResult.ret none
      else CallResult.fatalExit 1 "ERROR: response body read failed"

/-- classifyExecute mirrors the response-classification chain of executeJob
(main.go lines 305 to 327): same shape as classifyCreate but with no 409
soft-success branch and 202 as the expected success code. -/
def classifyExecute (config : Config) (r : HttpResult) : CallResult :=
  match r with
  | HttpResult.transportErr m => CallResult.fatalExit 1 ("ERROR: " ++ m)
  | HttpResult.resp status _ bodyReadOk =>
    if status = 404 then
      CallResult.fatalExit 1
        ("ERROR: " ++ toString status ++ " " ++ statusText status ++
          " (" ++ executeRequestURL config ++ ")")
    else if status ≥ 300 then
      CallResult.fatalExit 1 ("ERROR: " ++ toString status ++ " " ++ statusText status)
    else if status = 202 then
      CallResult.ret none
    else
      if bodyReadOk then CallResult.ret none
      else CallResult.fatalExit 1 "ERROR: response body read failed"

/-- createJob mirrors main.go lines 231 to 278: build the request, build
the HTTP client (a fatal abort there means no network call is made), then
issue the call and classify the response.  The returned list records the
network calls actually performed. -/
def createJob (job : CheckConfig) (config : Config) (sysPoolAvail : Bool)
    (readFile : String → Except String String) (doResult : HttpResult) :
    CallResult × List Request :=
  match initHTTPClient config sysPoolAvail readFile with
  | ClientResult.fatalExit c m => (CallResult.fatalExit c m, [])
  | ClientResult.ok _ =>
      (classifyCreate config doResult,
        [Request.create { url := createRequestURL config, payload := job }])

/-- executeJob mirrors main.go lines 280 to 328, with the same conventions
as createJob. -/
def executeJob (job : CheckConfig) (config : Config) (sysPoolAvail : Bool)
    (readFile : String → Except String String) (doResult : HttpResult) :
    CallResult × List Request :=
  match initHTTPClient config sysPoolAvail readFile with
  | ClientResult.fatalExit c m => (CallResult.fatalExit c m, [])
  | ClientResult.ok _ =>
      (classifyExecute config doResult,
        [Request.execute
          { url := executeRequestURL config, payload := mkJobRequest job config }])

/-- RunOutcome is the observable final outcome of a run: either both
driver functions returned and the plugin exits with a check state and an
optional error message, or log.Fatalf aborted the process with the given
exit code. -/
inductive RunOutcome where
  | finished (state : Nat) (e : Option String)
  | fatalExit (exitCode : Nat) (msg : String)
deriving DecidableEq, Repr

/-- executePlaybook mirrors main.go lines 153 to 169, parametrised by the
responses the two phases would receive: generate the job definition, run
createJob (propagating its error, if any, with the Critical state), then
run executeJob (whose error, if any, is replaced by nil next to the
Critical state).  The list records the network calls issued. -/
def executePlaybook (config : Config) (sysPoolAvail : Bool)
    (readFile : String → Except String String)
    (createResp execResp : HttpResult) : RunOutcome × List Request :=
  match generateCheckConfig config with
  | (_, some e) => (RunOutcome.finished CheckStateCritical (some ("ERROR: " ++ e)), [])
  | (job, none) =>
    match createJob job config sysPoolAvail readFile createResp with
    | (CallResult.fatalExit c m, reqs) => (RunOutcome.fatalExit c m, reqs)
    | (CallResult.ret (some e), reqs) =>
        (RunOutcome.finished CheckStateCritical (some e), reqs)
    | (CallResult.ret none, reqs) =>
      match executeJob job config sysPoolAvail readFile execResp with
      | (CallResult.fatalExit c m, reqs2) => (RunOutcome.fatalExit c m, reqs ++ reqs2)
      | (CallResult.ret (some _), reqs2) =>
          (RunOutcome.finished CheckStateCritical none, reqs ++ reqs2)
      | (CallResult.ret none, reqs2) =>
          (RunOutcome.finished CheckStateOK none, reqs ++ reqs2)

/-- executePlaybookOnResults is main.go lines 153 to 169 with the results
of its three callees abstracted as parameters: it maps the error value
returned by generateCheckConfig, createJob and executeJob to the final
(state, error) pair exactly as the conditional chain of the source does. -/
def executePlaybookOnResults (genErr createErr execErr : Option String) :
    Nat × Option String :=
  match genErr with
  | some e => (CheckStateCritical, some ("ERROR: " ++ e))
  | none =>
    match createErr with
    | some e => (CheckStateCritical, some e)
    | none =>
      match execErr with
      | some _ => (CheckStateCritical, none)
      | none => (CheckStateOK, none)

/-- runPlugin models the sensu-plugin-sdk driver set up in main (main.go
lines 135 to 138).  Modelled from the spec: the SDK runs the validation
function checkArgs first and only invokes the check function
executePlaybook when validation returned the OK state, so a failed
validation ends the run with no network call. -/
def runPlugin (config : Config) (sysPoolAvail : Bool)
    (readFile : String → Except String String)
    (createResp execResp : HttpResult) : RunOutcome × List Request :=
  let ca := checkArgs config
  if ca.1 = CheckStateOK then
    executePlaybook config sysPoolAvail readFile createResp execResp
  else
    (RunOutcome.finished ca.1 ca.2, [])

/-- Server state of the remote platform.  Modelled from the spec: per the
HTTP contract, the platform stores check definitions keyed by namespace
and name. -/
abbrev Server := List (String × String)

/-- serverCreate is the platform response to the create endpoint.
Modelled from the spec: an existing identifier answers the conflict status
409 and leaves the state unchanged, otherwise the definition is stored and
the creation status 201 is answered. -/
def serverCreate (s : Server) (ns name : String) : Server × Nat :=
  if (ns, name) ∈ s then (s, 409) else ((ns, name) :: s, 201)

/-- serverExecute is the platform response to the execute endpoint.
Modelled from the spec: a stored definition answers the accepted status
202, a missing one answers 404. -/
def serverExecute (s : Server) (ns name : String) : Nat :=
  if (ns, name) ∈ s then 202 else 404

/-- runWithServer runs the whole plugin once against the server model:
checkArgs gate, then Phase 1 against serverCreate, then Phase 2 against
serverExecute, threading the server state. -/
def runWithServer (config : Config) (sysPoolAvail : Bool)
    (readFile : String → Except String String) (s : Server) :
    Server × (RunOutcome × List Request) :=
  let ca := checkArgs config
  if ca.1 = CheckStateOK then
    match generateCheckConfig config with
    | (_, some e) =>
        (s, (RunOutcome.finished CheckStateCritical (some ("ERROR: " ++ e)), []))
    | (job, none) =>
      let created := serverCreate s job.Namespace job.Name
      match createJob job config sysPoolAvail readFile
          (HttpResult.resp created.2 "" true) with
      | (CallResult.fatalExit c m, reqs) => (created.1, (RunOutcome.fatalExit c m, reqs))
      | (CallResult.ret (some e), reqs) =>
          (created.1, (RunOutcome.finished CheckStateCritical (some e), reqs))
      | (CallResult.ret none, reqs) =>
        let code2 := serverExecute created.1 config.Namespace config.JobID
        match executeJob job config sysPoolAvail readFile
            (HttpResult.resp code2 "" true) with
        | (CallResult.fatalExit c m, reqs2) =>
            (created.1, (RunOutcome.fatalExit c m, reqs ++ reqs2))
        | (CallResult.ret (some _), reqs2) =>
            (created.1, (RunOutcome.finished CheckStateCritical none, reqs ++ reqs2))
        | (CallResult.ret none, reqs2) =>
            (created.1, (RunOutcome.finished CheckStateOK none, reqs ++ reqs2))
  else
    (s, (RunOutcome.finished ca.1 ca.2, []))

/-- RunOutcome.isCriticalFinish holds exactly when the run ended by a
normal return with the Critical check state. -/
def RunOutcome.isCriticalFinish : RunOutcome → Bool
  | RunOutcome.finished state _ => state = CheckStateCritical
  | RunOutcome.fatalExit _ _ => false

/-- Fixture configuration with every input populated, for concrete
witnesses and counterexamples. -/
def cfgFull : Config :=
  { Namespace := "default"
    JobID := "job-1"
    Command := "uptime"
    Subscriptions := "web,db"
    Timeout := "10"
    RuntimeAssets := ""
    SensuAPIUrl := "https://sensu.example.com:8080"
    SensuAccessToken := "tok"
    SensuTrustedCaFile := "" }

/-- Fixture configuration with an empty API URL. -/
def cfgNoURL : Config := { cfgFull with SensuAPIUrl := "" }

/-- Fixture configuration with every input empty. -/
def cfgAllEmpty : Config :=
  { Namespace := ""
    JobID := ""
    Command := ""
    Subscriptions := ""
    Timeout := ""
    RuntimeAssets := ""
    SensuAPIUrl := ""
    SensuAccessToken := ""
    SensuTrustedCaFile := "" }

/-- Fixture configuration with an empty command. -/
def cfgMissingCommand : Config := { cfgFull with Command := "" }

/-- Fixture configuration with a non-numeric timeout string. -/
def cfgBadTimeout : Config := { cfgFull with Timeout := "abc" }

/-- Fixture configuration with a trusted-CA file path set. -/
def cfgWithCA : Config := { cfgFull with SensuTrustedCaFile := "/etc/sensu/ca.pem" }

/-- readFile oracle that succeeds on every path with empty contents. -/
def rfOk : String → Except String String := fun _ => Except.ok ""

/-- readFile oracle that fails on every path with a permission message. -/
def rfDenied : String → Except String String := fun _ => Except.error "permission denied"

/- ------------------------------------------------------------------ -/
/- Helper lemmas shared between claims.                               -/
/- ------------------------------------------------------------------ -/

theorem initHTTPClient_emptyCA (config : Config) (sysPoolAvail : Bool)
    (readFile : String → Except String String)
    (hca : config.SensuTrustedCaFile = "") :
    initHTTPClient config sysPoolAvail readFile =
      ClientResult.ok { rootCAs := { fromSystem := sysPoolAvail, appended := [] } } := by
  simp only [initHTTPClient, LoadCACerts, hca]
  cases sysPoolAvail <;> simp

theorem classifyCreate_201 (config : Config) :
    classifyCreate config (HttpResult.resp 201 "" true) = CallResult.ret none := rfl

theorem classifyCreate_409 (config : Config) :
    classifyCreate config (HttpResult.resp 409 "" true) = CallResult.ret none := rfl

theorem classifyExecute_202 (config : Config) :
    classifyExecute config (HttpResult.resp 202 "" true) = CallResult.ret none := rfl

theorem goAtoiCore_err_val (neg : Bool) (ds : List Char)
    (h : (goAtoiCore neg ds).2 = some AtoiErr.notNumeric) :
    (goAtoiCore neg ds).1 = 0 := by
  simp only [goAtoiCore] at h ⊢
  split_ifs at h ⊢ <;> simp_all

theorem goAtoi_err_val (s : String)
    (h : (goAtoi s).2 = some AtoiErr.notNumeric) : (goAtoi s).1 = 0 := by
  simp only [goAtoi] at h ⊢
  exact goAtoiCore_err_val _ _ h

theorem runWithServer_fresh (config : Config) (s : Server)
    (sysPoolAvail : Bool) (readFile : String → Except String String)
    (hok : (checkArgs config).1 = CheckStateOK)
    (hca : config.SensuTrustedCaFile = "")
    (hnew : (config.Namespace, config.JobID) ∉ s) :
    runWithServer config sysPoolAvail readFile s =
      ((config.Namespace, config.JobID) :: s,
        (RunOutcome.finished CheckStateOK none,
          [Request.create { url := createRequestURL config,
                            payload := (generateCheckConfig config).1 },
           Request.execute { url := executeRequestURL config,
                             payload := mkJobRequest (generateCheckConfig config).1 config }])) := by
  have hclient := initHTTPClient_emptyCA config sysPoolAvail readFile hca
  simp [runWithServer, hok, generateCheckConfig, serverCreate, serverExecute,
    createJob, executeJob, hclient, classifyCreate_201, classifyExecute_202, hnew,
    mkJobRequest]

theorem runWithServer_existing (config : Config) (s : Server)
    (sysPoolAvail : Bool) (readFile : String → Except String String)
    (hok : (checkArgs config).1 = CheckStateOK)
    (hca : config.SensuTrustedCaFile = "")
    (hmem : (config.Namespace, config.JobID) ∈ s) :
    runWithServer config sysPoolAvail readFile s =
      (s,
        (RunOutcome.finished CheckStateOK none,
          [Request.create { url := createRequestURL config,
                            payload := (generateCheckConfig config).1 },
           Request.execute { url := executeRequestURL config,
                             payload := mkJobRequest (generateCheckConfig config).1 config }])) := by
  have hclient := initHTTPClient_emptyCA config sysPoolAvail readFile hca
  simp [runWithServer, hok, generateCheckConfig, serverCreate, serverExecute,
    createJob, executeJob, hclient, classifyCreate_409, classifyExecute_202, hmem,
    mkJobRequest]

/- ------------------------------------------------------------------ -/
/- Claim theorems.                                                    -/
/- ------------------------------------------------------------------ -/

/-- Claim C1, counterexample: a configuration with an empty API URL makes
checkArgs return the Critical state, not the Warning state the claim
announces for every missing required input. -/
theorem missing_url_not_warning :
    cfgNoURL.SensuAPIUrl.length = 0 ∧
    checkArgs cfgNoURL =
      (CheckStateCritical,
        some "--sensu-api-url flag or $SENSU_API_URL environment variable must be set") ∧
    CheckStateCritical ≠ CheckStateWarning := by decide

/-- Claim C1 (amended): checkArgs classifies a missing command or missing
subscriptions as Warning, but a missing API URL or missing namespace as
Critical, and any non-OK validation result ends the run with no network
call; the Critical state therefore also arises pre-flight, not only for
failures during Create or Invoke. -/
theorem checkArgs_classification (config : Config) :
    ((checkArgs config).1 = CheckStateWarning ↔
      config.SensuAPIUrl.length ≠ 0 ∧ config.Namespace.length ≠ 0 ∧
        (config.Command.length = 0 ∨ config.Subscriptions.length = 0)) ∧
    ((checkArgs config).1 = CheckStateCritical ↔
      config.SensuAPIUrl.length = 0 ∨ config.Namespace.length = 0) ∧
    ((checkArgs config).1 ≠ CheckStateOK →
      ∀ (sysPoolAvail : Bool) (readFile : String → Except String String)
        (createResp execResp : HttpResult),
        runPlugin config sysPoolAvail readFile createResp execResp =
          (RunOutcome.finished (checkArgs config).1 (checkArgs config).2, [])) := by
  refine ⟨?_, ?_, ?_⟩
  · unfold checkArgs
    split_ifs <;>
      simp_all [CheckStateOK, CheckStateWarning, CheckStateCritical]
  · unfold checkArgs
    split_ifs <;>
      simp_all [CheckStateOK, CheckStateWarning, CheckStateCritical]
  · intro hne sysPoolAvail readFile createResp execResp
    simp only [runPlugin]
    rw [if_neg hne]

/-- Claim C1, witness: the amended theorem applied to the fixture with an
empty API URL. -/
theorem checkArgs_classification_witness :
    runPlugin cfgNoURL true rfOk (HttpResult.resp 201 "" true)
        (HttpResult.resp 202 "" true) =
      (RunOutcome.finished (checkArgs cfgNoURL).1 (checkArgs cfgNoURL).2, []) :=
  (checkArgs_classification cfgNoURL).2.2 (by decide) true rfOk
    (HttpResult.resp 201 "" true) (HttpResult.resp 202 "" true)

/-- Claim C3, counterexample: the labels map of the job definition built
for the fully populated fixture is empty, so it contains neither of the
two provenance entries the claim announces. -/
theorem create_labels_counterexample :
    ((generateCheckConfig cfgFull).1).Labels = [] ∧
    ("check_type", "runbook") ∉ ((generateCheckConfig cfgFull).1).Labels ∧
    ("source", "Sensu Runbook") ∉ ((generateCheckConfig cfgFull).1).Labels := by
  decide

/-- Claim C3 (amended): for every configuration the labels map of the
submitted job definition is created empty by make and never written to,
so it carries no provenance entries at all. -/
theorem create_labels_empty (config : Config) :
    ((generateCheckConfig config).1).Labels = [] ∧
    ("check_type", "runbook") ∉ ((generateCheckConfig config).1).Labels ∧
    ("source", "Sensu Runbook") ∉ ((generateCheckConfig config).1).Labels := by
  refine ⟨rfl, ?_, ?_⟩ <;> simp [generateCheckConfig]

/-- Claim C4: the identifier placed in the Create payload metadata name,
the check field of the Invoke body, and the job segment of the Invoke URL
are all the one value config.JobID of the run. -/
theorem job_identifier_consistent (config : Config) :
    ((generateCheckConfig config).1).Name = config.JobID ∧
    (mkJobRequest (generateCheckConfig config).1 config).Check = config.JobID ∧
    executeRequestURL config =
      config.SensuAPIUrl ++ "/api/core/v2/namespaces/" ++ config.Namespace ++
        "/checks/" ++ config.JobID ++ "/execute" :=
  ⟨rfl, rfl, rfl⟩

/-- Claim C6: the Invoke body carries exactly the comma-split of the
subscriptions input, order and duplicates preserved, as the two quoted
examples illustrate. -/
theorem invoke_subscriptions_split (config : Config) (job : CheckConfig) :
    (mkJobRequest job config).Subscriptions = goSplit config.Subscriptions ',' ∧
    goSplit "web,db,cache" ',' = ["web", "db", "cache"] ∧
    goSplit "web,web" ',' = ["web", "web"] :=
  ⟨rfl, by decide, by decide⟩

/-- Claim C7, counterexample: a configuration whose command is empty but
whose API URL is also empty ends with the Critical state, not Warning, so
the claim does not hold of every configuration with an empty command. -/
theorem missing_command_not_warning :
    cfgAllEmpty.Command.length = 0 ∧
    (runPlugin cfgAllEmpty true rfOk (HttpResult.resp 201 "" true)
        (HttpResult.resp 202 "" true)).1 =
      RunOutcome.finished CheckStateCritical
        (some "--sensu-api-url flag or $SENSU_API_URL environment variable must be set") ∧
    CheckStateCritical ≠ CheckStateWarning := by decide

/-- Claim C7 (amended): when the API URL and the namespace are non-empty,
a configuration with an empty command or empty subscriptions makes the run
end with the Warning state and no network request is issued. -/
theorem missing_cmd_or_subs_warning (config : Config)
    (hurl : config.SensuAPIUrl.length ≠ 0) (hns : config.Namespace.length ≠ 0)
    (h : config.Command.length = 0 ∨ config.Subscriptions.length = 0)
    (sysPoolAvail : Bool) (readFile : String → Except String String)
    (createResp execResp : HttpResult) :
    (checkArgs config).1 = CheckStateWarning ∧
    runPlugin config sysPoolAvail readFile createResp execResp =
      (RunOutcome.finished CheckStateWarning (checkArgs config).2, []) := by
  have hw : (checkArgs config).1 = CheckStateWarning := by
    unfold checkArgs
    split_ifs <;> simp_all
  refine ⟨hw, ?_⟩
  simp only [runPlugin]
  rw [if_neg (by rw [hw]; decide), hw]

/-- Claim C7, witness: the amended theorem applied to the fixture with an
empty command and everything else populated. -/
theorem missing_cmd_or_subs_warning_witness :
    (checkArgs cfgMissingCommand).1 = CheckStateWarning ∧
    runPlugin cfgMissingCommand true rfOk (HttpResult.resp 201 "" true)
        (HttpResult.resp 202 "" true) =
      (RunOutcome.finished CheckStateWarning (checkArgs cfgMissingCommand).2, []) :=
  missing_cmd_or_subs_warning cfgMissingCommand (by decide) (by decide)
    (Or.inl (by decide)) true rfOk (HttpResult.resp 201 "" true)
    (HttpResult.resp 202 "" true)

/-- Claim C9: generateCheckConfig always returns a nil error, and when the
timeout string is not parseable (the empty string included) the discarded
Atoi error leaves the Timeout field silently at 0. -/
theorem generateCheckConfig_total (config : Config) :
    (generateCheckConfig config).2 = none ∧
    ((goAtoi config.Timeout).2 = some AtoiErr.notNumeric →
      ((generateCheckConfig config).1).Timeout = 0) ∧
    goAtoi "" = (0, some AtoiErr.notNumeric) := by
  refine ⟨rfl, ?_, by decide⟩
  intro h
  have h0 := goAtoi_err_val _ h
  show uint32OfInt (goAtoi config.Timeout).1 = 0
  rw [h0]
  rfl

/-- Claim C9, witness: the theorem applied to the fixture whose timeout
string is the non-numeric "abc". -/
theorem generateCheckConfig_total_witness :
    ((generateCheckConfig cfgBadTimeout).1).Timeout = 0 :=
  (generateCheckConfig_total cfgBadTimeout).2.1 (by decide)

/-- Claim C10: in the conditional chain of executePlaybook, an error
returned by Phase 2 yields the Critical state paired with a nil error (the
reason is dropped), while an error returned by Phase 1 is propagated next
to the Critical state; with all three callees error-free the run is OK. -/
theorem phase_error_propagation (e : String) (execErr2 : Option String) :
    executePlaybookOnResults none none (some e) = (CheckStateCritical, none) ∧
    executePlaybookOnResults none (some e) execErr2 = (CheckStateCritical, some e) ∧
    executePlaybookOnResults none none none = (CheckStateOK, none) :=
  ⟨rfl, rfl, rfl⟩

/-- Claim C5, counterexample: a 404 answer to the Create request of the
fully populated fixture run makes the process abort through log.Fatalf
with exit status 1; the outcome is not a Critical finish of the check
(whose exit status would be 2). -/
theorem notfound_critical_counterexample :
    (executePlaybook cfgFull true rfOk (HttpResult.resp 404 "" true)
        (HttpResult.resp 202 "" true)).1.isCriticalFinish = false ∧
    (executePlaybook cfgFull true rfOk (HttpResult.resp 404 "" true)
        (HttpResult.resp 202 "" true)).1 =
      RunOutcome.fatalExit 1
        "ERROR: 404 Not Found (https://sensu.example.com:8080/api/core/v2/namespaces/default/checks)" := by
  decide

/-- Claim C5 (amended): a 404 answer in either phase aborts the run at
once through log.Fatalf with process exit status 1 (not the Critical check
state), a Phase 1 404 means the Invoke request is never issued, and every
other status of at least 300 (other than 409 in Phase 1) likewise aborts
with a message carrying the numeric status and its textual description. -/
theorem notfound_aborts_run (config : Config)
    (hca : config.SensuTrustedCaFile = "")
    (sysPoolAvail : Bool) (readFile : String → Except String String)
    (execResp : HttpResult) :
    executePlaybook config sysPoolAvail readFile (HttpResult.resp 404 "" true)
        execResp =
      (RunOutcome.fatalExit 1
        ("ERROR: " ++ toString (404 : Nat) ++ " " ++ statusText 404 ++
          " (" ++ createRequestURL config ++ ")"),
        [Request.create { url := createRequestURL config,
                          payload := (generateCheckConfig config).1 }]) ∧
    (executePlaybook config sysPoolAvail readFile (HttpResult.resp 201 "" true)
        (HttpResult.resp 404 "" true)).1 =
      RunOutcome.fatalExit 1
        ("ERROR: " ++ toString (404 : Nat) ++ " " ++ statusText 404 ++
          " (" ++ executeRequestURL config ++ ")") ∧
    (∀ st : Nat, 300 ≤ st → st ≠ 404 → st ≠ 409 →
      classifyCreate config (HttpResult.resp st "" true) =
        CallResult.fatalExit 1 ("ERROR: " ++ toString st ++ " " ++ statusText st)) ∧
    (∀ st : Nat, 300 ≤ st → st ≠ 404 →
      classifyExecute config (HttpResult.resp st "" true) =
        CallResult.fatalExit 1 ("ERROR: " ++ toString st ++ " " ++ statusText st)) := by
  have hclient := initHTTPClient_emptyCA config sysPoolAvail readFile hca
  refine ⟨?_, ?_, ?_, ?_⟩
  · simp [executePlaybook, generateCheckConfig, createJob, hclient, classifyCreate,
      statusText]
  · simp [executePlaybook, generateCheckConfig, createJob, executeJob, hclient,
      classifyCreate_201, classifyExecute, statusText]
  · intro st h300 h404 h409
    simp only [classifyCreate]
    rw [if_neg h404, if_neg h409, if_pos (show st ≥ 300 from h300)]
  · intro st h300 h404
    simp only [classifyExecute]
    rw [if_neg h404, if_pos (show st ≥ 300 from h300)]

/-- Claim C5, witness: the amended theorem applied to the fully populated
fixture with a created Phase 1 and a 404 Phase 2. -/
theorem notfound_aborts_run_witness :
    (executePlaybook cfgFull true rfOk (HttpResult.resp 201 "" true)
        (HttpResult.resp 404 "" true)).1 =
      RunOutcome.fatalExit 1
        ("ERROR: " ++ toString (404 : Nat) ++ " " ++ statusText 404 ++
          " (" ++ executeRequestURL cfgFull ++ ")") :=
  (notfound_aborts_run cfgFull rfl true rfOk (HttpResult.resp 202 "" true)).2.1

/-- Claim C8: a non-empty trusted-CA path whose read fails makes client
construction abort (log.Fatalf, exit status 1) with the read error in its
message, so no network call is made by either phase; an unavailable system
cert pool instead only falls back to an empty trust store and client
construction succeeds. -/
theorem ca_read_failure_and_fallback (config : Config) (sysPoolAvail : Bool)
    (readFile : String → Except String String) (e : String)
    (hpath : config.SensuTrustedCaFile ≠ "")
    (hread : readFile config.SensuTrustedCaFile = Except.error e) :
    initHTTPClient config sysPoolAvail readFile =
      ClientResult.fatalExit 1
        ("ERROR: failed to read CA file (" ++ config.SensuTrustedCaFile ++ "): " ++ e) ∧
    (∀ (job : CheckConfig) (doResult : HttpResult),
      createJob job config sysPoolAvail readFile doResult =
        (CallResult.fatalExit 1
          ("ERROR: failed to read CA file (" ++ config.SensuTrustedCaFile ++ "): " ++ e),
          []) ∧
      executeJob job config sysPoolAvail readFile doResult =
        (CallResult.fatalExit 1
          ("ERROR: failed to read CA file (" ++ config.SensuTrustedCaFile ++ "): " ++ e),
          [])) ∧
    (∀ config2 : Config, config2.SensuTrustedCaFile = "" →
      initHTTPClient config2 false readFile =
        ClientResult.ok { rootCAs := { fromSystem := false, appended := [] } }) := by
  have hinit : initHTTPClient config sysPoolAvail readFile =
      ClientResult.fatalExit 1
        ("ERROR: failed to read CA file (" ++ config.SensuTrustedCaFile ++ "): " ++ e) := by
    simp only [initHTTPClient, LoadCACerts]
    rw [if_pos hpath, hread]
  refine ⟨hinit, ?_, ?_⟩
  · intro job doResult
    constructor <;> simp only [createJob, executeJob, hinit]
  · intro config2 h2
    exact initHTTPClient_emptyCA config2 false readFile h2

/-- Claim C2: a conflict (409) answer to Create is a soft success, so the
run is not aborted: createJob returns nil, the Invoke request is still
issued for the same job identifier, a 409 Create followed by a 202 Invoke
gives overall OK, and against the platform model two full runs with the
same fixed job identifier give OK both times, the second exercising the
conflict path of Phase 1. -/
theorem conflict_idempotent (config : Config) (s : Server)
    (sysPoolAvail : Bool) (readFile : String → Except String String)
    (hok : (checkArgs config).1 = CheckStateOK)
    (hca : config.SensuTrustedCaFile = "")
    (hnew : (config.Namespace, config.JobID) ∉ s) :
    classifyCreate config (HttpResult.resp 409 "" true) = CallResult.ret none ∧
    executePlaybook config sysPoolAvail readFile (HttpResult.resp 409 "" true)
        (HttpResult.resp 202 "" true) =
      (RunOutcome.finished CheckStateOK none,
        [Request.create { url := createRequestURL config,
                          payload := (generateCheckConfig config).1 },
         Request.execute { url := executeRequestURL config,
                           payload := mkJobRequest (generateCheckConfig config).1 config }]) ∧
    (runWithServer config sysPoolAvail readFile s).2.1 =
      RunOutcome.finished CheckStateOK none ∧
    (runWithServer config sysPoolAvail readFile
        (runWithServer config sysPoolAvail readFile s).1).2.1 =
      RunOutcome.finished CheckStateOK none ∧
    serverCreate (runWithServer config sysPoolAvail readFile s).1
        config.Namespace config.JobID =
      ((runWithServer config sysPoolAvail readFile s).1, 409) := by
  have hclient := initHTTPClient_emptyCA config sysPoolAvail readFile hca
  have hA := runWithServer_fresh config s sysPoolAvail readFile hok hca hnew
  have h1 : (runWithServer config sysPoolAvail readFile s).1 =
      (config.Namespace, config.JobID) :: s := by rw [hA]
  have hmem : (config.Namespace, config.JobID) ∈ (config.Namespace, config.JobID) :: s :=
    List.mem_cons_self _ _
  have hB := runWithServer_existing config ((config.Namespace, config.JobID) :: s)
    sysPoolAvail readFile hok hca hmem
  refine ⟨classifyCreate_409 config, ?_, ?_, ?_, ?_⟩
  · simp [executePlaybook, generateCheckConfig, createJob, executeJob, hclient,
      classifyCreate_409, classifyExecute_202, mkJobRequest]
  · rw [hA]
  · rw [h1, hB]
  · rw [h1]
    simp [serverCreate, hmem]

/-- Claim C2, witness: the theorem applied to the fully populated fixture
against an initially empty platform; the second full run still ends OK. -/
theorem conflict_idempotent_witness :
    (runWithServer cfgFull true rfOk
        (runWithServer cfgFull true rfOk []).1).2.1 =
      RunOutcome.finished CheckStateOK none :=
  (conflict_idempotent cfgFull [] true rfOk (by decide) rfl (by decide)).2.2.2.1

/-- Claim C8, witness: the theorem applied to the fixture whose CA path is
unreadable under the denying readFile oracle. -/
theorem ca_read_failure_witness :
    initHTTPClient cfgWithCA true rfDenied =
      ClientResult.fatalExit 1
        ("ERROR: failed to read CA file (" ++ cfgWithCA.SensuTrustedCaFile ++
          "): " ++ "permission denied") :=
  (ca_read_failure_and_fallback cfgWithCA true rfDenied "permission denied"
    (by decide) rfl).1

end SensuRunbook
